import Mathlib

/-!
Shallow embedding of the fisher webhook receiver (Rust), covering the parts
of the code that the specification's claims are about:

* `src/providers/core.rs` — the provider registry (`Providers`, `Provider`,
  `HookProvider`);
* `src/processor/thread.rs` — the worker thread (`Thread`, `ProcessResult`,
  the `inner_thread` loop);
* `src/app.rs` — `RunningFisher::reload`, the reload interlock between the
  HTTP front-end lock and the processor (scheduler) lock.

Rust `HashMap`s are modelled as association lists whose lookup takes the most
recent binding; `Result<T>` becomes `Except`; machine integers that are only
used as identifiers become `Nat`.  Effects that cross threads (API calls to
the scheduler, the outcome of `job.execute`) are exogenous: they enter the
model as explicit parameters, and the events the code performs are collected
into traces.
-/

namespace Fisher

/-- RequestType, defined in the processor module (`processor::RequestType`,
outside the embedded files); its variants are used by `providers/core.rs`
and listed in the data model: `ExecuteHook`, `Ping`, `Invalid`. -/
inductive RequestType
  | ExecuteHook
  | Ping
  | Invalid
  deriving DecidableEq, Repr

/-- Request, produced by the HTTP front-end (`processor::Request`): headers,
query/body params, source address and raw body.  Maps become association
lists; the socket address becomes a string. -/
structure Request where
  headers : List (String × String)
  params : List (String × String)
  source : String
  body : String
  deriving DecidableEq, Repr

/-- ErrorKind from `errors.rs`; only the variant used by `providers/core.rs`
is needed here. -/
inductive ErrorKind
  | ProviderNotFound (name : String)
  deriving DecidableEq, Repr

/-- FisherError wraps an ErrorKind (`FisherError::new(kind)`). -/
structure FisherError where
  kind : ErrorKind
  deriving DecidableEq, Repr

/-- Provider (src/providers/core.rs): a name plus the four function pointers
`check_config`, `request_type`, `validator`, `env`.  The `CopyToClone`
wrapper is a Rust ownership artifact and is dropped. -/
structure Provider where
  name : String
  check_config_func : String → Except FisherError Unit
  request_type_func : Request → String → RequestType
  validator_func : Request → String → Bool
  env_func : Request → String → List (String × String)

/-- Provider::new. -/
def Provider.new (name : String) (check_config : String → Except FisherError Unit)
    (request_type : Request → String → RequestType)
    (validator : Request → String → Bool)
    (env : Request → String → List (String × String)) : Provider :=
  { name := name
    check_config_func := check_config
    request_type_func := request_type
    validator_func := validator
    env_func := env }

/-- Provider::check_config. -/
def Provider.check_config (p : Provider) (config : String) : Except FisherError Unit :=
  p.check_config_func config

/-- Provider::request_type. -/
def Provider.request_type (p : Provider) (req : Request) (config : String) : RequestType :=
  p.request_type_func req config

/-- Provider::validate. -/
def Provider.validate (p : Provider) (req : Request) (config : String) : Bool :=
  p.validator_func req config

/-- Provider::env. -/
def Provider.env (p : Provider) (req : Request) (config : String) :
    List (String × String) :=
  p.env_func req config

/-- Providers (src/providers/core.rs): `HashMap<String, Provider>` modelled
as an association list; the most recent insertion is found first, matching
`HashMap::insert` replacement semantics for `get`. -/
structure Providers where
  providers : List (String × Provider)

/-- Providers::new. -/
def Providers.new : Providers := ⟨[]⟩

/-- Providers::add — `self.providers.insert(name.to_string(), provider)`. -/
def Providers.add (s : Providers) (name : String) (provider : Provider) : Providers :=
  ⟨(name, provider) :: s.providers⟩

/-- Providers::by_name — `HashMap::get` followed by clone on hit, and
`ErrorKind::ProviderNotFound(name)` on miss. -/
def Providers.by_name (s : Providers) (name : String) : Except FisherError Provider :=
  match s.providers.find? (fun kv => kv.1 == name) with
  | some kv => Except.ok kv.2
  | none => Except.error ⟨ErrorKind.ProviderNotFound name⟩

/-- HookProvider (src/providers/core.rs): a Provider together with the
config string from the hook's `##` header. -/
structure HookProvider where
  provider : Provider
  config : String

/-- HookProvider::new — `try!(provider.check_config(&config))`, then store
the provider and config. -/
def HookProvider.new (provider : Provider) (config : String) :
    Except FisherError HookProvider :=
  match provider.check_config config with
  | Except.error e => Except.error e
  | Except.ok _ => Except.ok ⟨provider, config⟩

/-- HookProvider::name. -/
def HookProvider.name (hp : HookProvider) : String :=
  hp.provider.name

/-- HookProvider::request_type — delegates with the stored config. -/
def HookProvider.request_type (hp : HookProvider) (req : Request) : RequestType :=
  hp.provider.request_type req hp.config

/-- HookProvider::validate — delegates with the stored config. -/
def HookProvider.validate (hp : HookProvider) (req : Request) : Bool :=
  hp.provider.validate req hp.config

/-- HookProvider::env — delegates with the stored config. -/
def HookProvider.env (hp : HookProvider) (req : Request) : List (String × String) :=
  hp.provider.env req hp.config

/-- tests::provider::check_config (src/providers/core.rs, tests module):
any config other than "FAIL" is correct. -/
def tests.provider.check_config (config : String) : Except FisherError Unit :=
  if config ≠ "FAIL" then
    Except.ok ()
  else
    Except.error ⟨ErrorKind.ProviderNotFound ""⟩

/-- tests::provider::request_type: the "request_type" param set to "ping"
overrides to Ping, anything else gives ExecuteHook. -/
def tests.provider.request_type (req : Request) (_config : String) : RequestType :=
  match req.params.find? (fun kv => kv.1 == "request_type") with
  | some kv => if kv.2 = "ping" then RequestType.Ping else RequestType.ExecuteHook
  | none => RequestType.ExecuteHook

/-- tests::provider::validate: when the "secret" param is provided it must
equal "testing", otherwise the request is valid. -/
def tests.provider.validate (req : Request) (_config : String) : Bool :=
  match req.params.find? (fun kv => kv.1 == "secret") with
  | some kv => kv.2 == "testing"
  | none => true

/-- tests::provider::env: the empty environment. -/
def tests.provider.env (_req : Request) (_config : String) : List (String × String) :=
  []

/-- tests::provider::get: the "Sample" provider used by the tests. -/
def tests.provider.get : Provider :=
  Provider.new "Sample" tests.provider.check_config tests.provider.request_type
    tests.provider.validate tests.provider.env

/-- tests::dummy_request: empty headers and params, loopback source,
empty body. -/
def tests.dummy_request : Request :=
  { headers := []
    params := []
    source := "127.0.0.1:80"
    body := "" }

/-- ScheduledJob (src/processor/scheduled_job.rs; only the identifiers the
worker thread observes are modelled): the job's unique id and the id of its
hook (`job.hook_id()`).  The job's `execute` runs a child process and is
exogenous to this model; its outcome is passed in as a parameter where
needed. -/
structure ScheduledJob where
  id : Nat
  hook_id : Nat
  deriving DecidableEq, Repr

/-- Output record reported to the scheduler after a job runs.  The type
lives in the processor module outside the embedded files; modelled from the
spec: `Output { job_id, hook_id, success, exit_status }`. -/
structure Output where
  job_id : Nat
  hook_id : Nat
  success : Bool
  exit_status : Nat
  deriving DecidableEq, Repr

/-- ProcessResult (src/processor/thread.rs): a submitted job is either
rejected (handed back) or accepted for execution. -/
inductive ProcessResult
  | Rejected (job : ScheduledJob)
  | Executing
  deriving DecidableEq, Repr

/-- Thread (src/processor/thread.rs): the worker's shared state as seen by
the scheduler side.  `communication` is the one-slot inbox
(`Arc<Mutex<Option<ScheduledJob>>>`); `unparked` records that
`handle.thread().unpark()` was called, i.e. the worker was woken. -/
structure Thread where
  id : Nat
  currently_running : Option Nat
  should_stop : Bool
  communication : Option ScheduledJob
  unparked : Bool
  deriving DecidableEq, Repr

/-- Thread::new: a fresh worker has no running job, a clear stop flag and an
empty inbox.  The id comes from `state.next_id(IdKind::ThreadId)`, passed in
here. -/
def Thread.new (id : Nat) : Thread :=
  { id := id
    currently_running := none
    should_stop := false
    communication := none
    unparked := false }

/-- Thread::busy — `self.currently_running.is_some()`. -/
def Thread.busy (t : Thread) : Bool :=
  t.currently_running.isSome

/-- Thread::mark_idle — clears `currently_running`. -/
def Thread.mark_idle (t : Thread) : Thread :=
  { t with currently_running := none }

/-- Thread::process: reject if the stop flag is set, reject if busy;
otherwise record the job's hook id in `currently_running`, place the job in
the inbox and wake the worker.  The remaining Rust branch (the inbox mutex
poisoned by a panicked holder) is not representable in this sequential
model. -/
def Thread.process (t : Thread) (job : ScheduledJob) : Thread × ProcessResult :=
  if t.should_stop then
    (t, ProcessResult.Rejected job)
  else if t.busy then
    (t, ProcessResult.Rejected job)
  else
    ({ t with
        currently_running := some job.hook_id
        communication := some job
        unparked := true },
      ProcessResult.Executing)

/-- Thread::stop: set the stop flag, wake the worker (the subsequent
`handle.join()` blocks until the worker loop has exited). -/
def Thread.stop (t : Thread) : Thread :=
  { t with should_stop := true, unparked := true }

/-- WorkerEvent: an observable action of one iteration of the worker loop —
an `api.record_output(output)` call, an `error.pretty_print()` log, or an
`api.job_ended(thread_id, &job)` call. -/
inductive WorkerEvent
  | recordOutput (output : Output)
  | logError
  | jobEnded (thread_id : Nat) (job_id : Nat)
  deriving DecidableEq, Repr

/-- Whether an event is a `record_output` report to the scheduler. -/
def WorkerEvent.isRecordOutput : WorkerEvent → Bool
  | WorkerEvent.recordOutput _ => true
  | WorkerEvent.logError => false
  | WorkerEvent.jobEnded _ _ => false

/-- How one iteration of the `inner_thread` loop ends: `exitOk` is the
`break` (the loop returns `Ok(())`), `exitErr` is a `?` propagating a
scheduler-API error out of the loop, `continued` is the `continue` after a
job, `parked` is `thread::park()` with an empty inbox. -/
inductive IterOutcome
  | exitOk
  | exitErr
  | continued
  | parked
  deriving DecidableEq, Repr

/-- Result of one iteration of the worker loop: the events performed, the
inbox afterwards, and how the iteration ended. -/
structure IterResult where
  events : List WorkerEvent
  comm : Option ScheduledJob
  outcome : IterOutcome
  deriving DecidableEq, Repr

/-- One iteration of Thread::inner_thread (src/processor/thread.rs, the loop
body).  `execRes` gives the exogenous outcome of `job.execute(&ctx)`; its
error payload is opaque (it is only pretty-printed).  `record_output_ok` and
`job_ended_ok` give the outcomes of the two scheduler-API calls; on `false`
the corresponding `?` propagates the error and the loop exits.  The stop
flag is checked first; only then is the pending job taken from the inbox. -/
def innerIteration (thread_id : Nat) (should_stop : Bool)
    (comm : Option ScheduledJob)
    (execRes : ScheduledJob → Except Unit Output)
    (record_output_ok : Bool) (job_ended_ok : Bool) : IterResult :=
  if should_stop then
    ⟨[], comm, IterOutcome.exitOk⟩
  else
    match comm with
    | none => ⟨[], none, IterOutcome.parked⟩
    | some job =>
      match execRes job with
      | Except.ok output =>
        if record_output_ok then
          if job_ended_ok then
            ⟨[WorkerEvent.recordOutput output,
              WorkerEvent.jobEnded thread_id job.id], none, IterOutcome.continued⟩
          else
            ⟨[WorkerEvent.recordOutput output,
              WorkerEvent.jobEnded thread_id job.id], none, IterOutcome.exitErr⟩
        else
          ⟨[WorkerEvent.recordOutput output], none, IterOutcome.exitErr⟩
      | Except.error _ =>
        if job_ended_ok then
          ⟨[WorkerEvent.logError,
            WorkerEvent.jobEnded thread_id job.id], none, IterOutcome.continued⟩
        else
          ⟨[WorkerEvent.logError,
            WorkerEvent.jobEnded thread_id job.id], none, IterOutcome.exitErr⟩

/-- ReloadEvent: the observable operations of `RunningFisher::reload`
(src/app.rs), in the order the code performs them.  An event is recorded
when the operation completes successfully; a failing fallible call records
no event and makes `?` return early. -/
inductive ReloadEvent
  | webLock
  | procLock
  | reloadHooks
  | cleanup
  | procUnlock
  | webUnlock
  deriving DecidableEq, Repr

/-- ReloadState: the state `reload` acts on through its collaborators.
Modelled from the spec: the hook repository holds an immutable snapshot (a
set of hook ids here) and the scheduler holds queued jobs; both live in
modules outside the embedded files. -/
structure ReloadState where
  snapshot : List Nat
  queued : List ScheduledJob
  deriving DecidableEq, Repr

/-- Scheduler cleanup of the queues.  Modelled from the spec: "Drops every
queued Job whose Hook is no longer present in the current Hook Repository
snapshot" (the scheduler is outside the embedded files). -/
def cleanupQueues (snapshot : List Nat) (queued : List ScheduledJob) :
    List ScheduledJob :=
  queued.filter (fun job => snapshot.contains job.hook_id)

/-- RunningFisher::reload (src/app.rs lines 165-180).  Control flow is taken
from the source: `web_api.lock()` (infallible), `processor.lock()?`, then
`hooks_blueprint.reload()`; `processor.cleanup()?` only if that was `Ok`;
then `processor.unlock()?`, `web_api.unlock()`, and the recollection result
is returned.  The collaborators are exogenous: `lockRes`, `cleanupRes` and
`unlockRes` are the outcomes of the processor API calls (errors are channel
failures, identified by a code), and `recollectRes` is the outcome of
`hooks_blueprint.reload()`.  Modelled from the spec for the collaborators'
effects (both live outside the embedded files): on success the blueprint
swaps in the new snapshot, on failure the old snapshot is retained; cleanup
drops the queued jobs whose hook left the snapshot. -/
def RunningFisher.reload (st : ReloadState)
    (lockRes : Except Nat Unit)
    (recollectRes : Except Nat (List Nat))
    (cleanupRes : Except Nat Unit)
    (unlockRes : Except Nat Unit) :
    List ReloadEvent × ReloadState × Except Nat Unit :=
  let tr0 := [ReloadEvent.webLock]
  match lockRes with
  | Except.error e => (tr0, st, Except.error e)
  | Except.ok _ =>
    let tr1 := tr0 ++ [ReloadEvent.procLock, ReloadEvent.reloadHooks]
    match recollectRes with
    | Except.ok newSnapshot =>
      let st1 : ReloadState := { st with snapshot := newSnapshot }
      match cleanupRes with
      | Except.error e => (tr1, st1, Except.error e)
      | Except.ok _ =>
        let st2 : ReloadState :=
          { st1 with queued := cleanupQueues newSnapshot st1.queued }
        let tr2 := tr1 ++ [ReloadEvent.cleanup]
        match unlockRes with
        | Except.error e => (tr2, st2, Except.error e)
        | Except.ok _ =>
          (tr2 ++ [ReloadEvent.procUnlock, ReloadEvent.webUnlock], st2,
            Except.ok ())
    | Except.error e =>
      match unlockRes with
      | Except.error e2 => (tr1, st, Except.error e2)
      | Except.ok _ =>
        (tr1 ++ [ReloadEvent.procUnlock, ReloadEvent.webUnlock], st,
          Except.error e)

/-- Lock-nesting check over a reload trace: walking the events while
tracking which locks are held, the scheduler (processor) lock is never held
at an instant when the front-end (web) lock is not. -/
def nestedOK : Bool → Bool → List ReloadEvent → Bool
  | _, _, [] => true
  | webHeld, procHeld, ev :: rest =>
    let webHeld2 :=
      match ev with
      | ReloadEvent.webLock => true
      | ReloadEvent.webUnlock => false
      | _ => webHeld
    let procHeld2 :=
      match ev with
      | ReloadEvent.procLock => true
      | ReloadEvent.procUnlock => false
      | _ => procHeld
    ((!procHeld2) || webHeld2) && nestedOK webHeld2 procHeld2 rest

/-- C1: in `RunningFisher::reload` the front-end (HTTP) lock is acquired
before the scheduler/processor lock and released after it.  When the
processor API calls succeed, the event sequence is exactly web lock,
processor lock, hook recollection, (cleanup on success only), processor
unlock, web unlock; and, for every combination of collaborator outcomes,
the trace never holds the scheduler lock at an instant when the front-end
lock is not held. -/
theorem reload_lock_interlock :
    (∀ (st : ReloadState) (recollectRes : Except Nat (List Nat)),
      (RunningFisher.reload st (Except.ok ()) recollectRes (Except.ok ())
          (Except.ok ())).1 =
        [ReloadEvent.webLock, ReloadEvent.procLock, ReloadEvent.reloadHooks] ++
        (match recollectRes with
          | Except.ok _ => [ReloadEvent.cleanup]
          | Except.error _ => []) ++
        [ReloadEvent.procUnlock, ReloadEvent.webUnlock]) ∧
    (∀ (st : ReloadState) (lockRes : Except Nat Unit)
        (recollectRes : Except Nat (List Nat))
        (cleanupRes unlockRes : Except Nat Unit),
      nestedOK false false
        (RunningFisher.reload st lockRes recollectRes cleanupRes unlockRes).1 =
        true) := by
  constructor
  · intro st r
    cases r <;> rfl
  · intro st a b c d
    cases a <;> cases b <;> cases c <;> cases d <;> rfl

/-- C2: reload is atomic on failure.  When hook recollection fails, the
scheduler cleanup is never invoked (no cleanup event occurs, whatever the
cleanup collaborator would have returned), the state — snapshot and queued
jobs — is returned untouched, both the processor and the front-end are
unlocked, and the recollection error is returned. -/
theorem reload_atomic_on_failure (st : ReloadState) (k : Nat)
    (cleanupRes : Except Nat Unit) :
    (RunningFisher.reload st (Except.ok ()) (Except.error k) cleanupRes
        (Except.ok ())).1 =
      [ReloadEvent.webLock, ReloadEvent.procLock, ReloadEvent.reloadHooks,
        ReloadEvent.procUnlock, ReloadEvent.webUnlock] ∧
    (RunningFisher.reload st (Except.ok ()) (Except.error k) cleanupRes
        (Except.ok ())).1.count ReloadEvent.cleanup = 0 ∧
    (RunningFisher.reload st (Except.ok ()) (Except.error k) cleanupRes
        (Except.ok ())).2.1 = st ∧
    (RunningFisher.reload st (Except.ok ()) (Except.error k) cleanupRes
        (Except.ok ())).2.2 = Except.error k :=
  ⟨rfl, rfl, rfl, rfl⟩

/-- C3: `Thread::process` has precondition idle: it returns `Rejected(job)`
whenever the worker's stop flag is set or it is busy, and otherwise returns
`Executing` with `currently_running` recording the job's hook id. -/
theorem process_precondition_idle (t : Thread) (job : ScheduledJob) :
    (t.should_stop = true ∨ t.busy = true →
      (t.process job).2 = ProcessResult.Rejected job) ∧
    (t.should_stop = false → t.busy = false →
      (t.process job).2 = ProcessResult.Executing ∧
      (t.process job).1.currently_running = some job.hook_id) := by
  constructor
  · rintro (h | h) <;> simp [Thread.process, h]
  · intro h1 h2
    simp [Thread.process, h1, h2]

/-- Witness for C3: a worker that just executed a job rejects the next
submission, and a fresh worker accepts a job and records its hook id. -/
theorem process_precondition_idle_witness :
    (((Thread.new 0).process ⟨1, 7⟩).1.process ⟨2, 9⟩).2 =
      ProcessResult.Rejected ⟨2, 9⟩ ∧
    ((Thread.new 0).process ⟨1, 7⟩).2 = ProcessResult.Executing ∧
    ((Thread.new 0).process ⟨1, 7⟩).1.currently_running = some 7 :=
  ⟨(process_precondition_idle ((Thread.new 0).process ⟨1, 7⟩).1 ⟨2, 9⟩).1
      (Or.inr rfl),
    (process_precondition_idle (Thread.new 0) ⟨1, 7⟩).2 rfl rfl⟩

/-- C4 counterexample: when `job.execute` returns an internal error, the
worker iteration performs exactly a log and the `job_ended` notification —
it never calls `record_output`, so no outcome record (with `success=false`
or otherwise) is reported to the scheduler, contrary to the claim. -/
theorem worker_error_no_output_report :
    (innerIteration 0 false (some ⟨3, 4⟩) (fun _ => Except.error ()) true
        true).events =
      [WorkerEvent.logError, WorkerEvent.jobEnded 0 3] ∧
    ((innerIteration 0 false (some ⟨3, 4⟩) (fun _ => Except.error ()) true
        true).events.any WorkerEvent.isRecordOutput) = false :=
  ⟨rfl, rfl⟩

/-- C4 amended: when `job.execute` returns an internal error the worker logs
the error, does not report any outcome record to the scheduler, still
notifies the scheduler of job completion via `job_ended`, and the worker
loop continues (the worker remains alive). -/
theorem worker_error_logged_and_continues (thread_id : Nat)
    (job : ScheduledJob) (execRes : ScheduledJob → Except Unit Output)
    (h : execRes job = Except.error ()) :
    innerIteration thread_id false (some job) execRes true true =
      ⟨[WorkerEvent.logError, WorkerEvent.jobEnded thread_id job.id], none,
        IterOutcome.continued⟩ := by
  simp [innerIteration, h]

/-- Witness for the amended C4, at a concrete job whose execution fails. -/
theorem worker_error_logged_and_continues_witness :
    innerIteration 5 false (some ⟨3, 4⟩) (fun _ => Except.error ()) true
        true =
      ⟨[WorkerEvent.logError, WorkerEvent.jobEnded 5 3], none,
        IterOutcome.continued⟩ :=
  worker_error_logged_and_continues 5 ⟨3, 4⟩ (fun _ => Except.error ()) rfl

/-- C5: the busy-flag invariant.  A fresh worker is not busy; a submission
that returns `Executing` makes it busy; `mark_idle` makes it idle again;
`stop` does not change the flag; and while busy, `process` leaves the
worker's state entirely unchanged (so the flag stays true until
`mark_idle`). -/
theorem thread_busy_flag_invariant (id : Nat) (t : Thread)
    (job : ScheduledJob) :
    (Thread.new id).busy = false ∧
    ((t.process job).2 = ProcessResult.Executing →
      (t.process job).1.busy = true) ∧
    (t.mark_idle).busy = false ∧
    (t.stop).busy = t.busy ∧
    (t.busy = true → (t.process job).1 = t) := by
  refine ⟨rfl, ?_, rfl, rfl, ?_⟩
  · intro h
    by_cases h1 : t.should_stop
    · simp [Thread.process, h1] at h
    · by_cases h2 : t.busy
      · simp [Thread.process, h1, h2] at h
      · simp only [Thread.busy] at h2
        simp [Thread.process, Thread.busy, h1, h2]
  · intro hb
    by_cases h1 : t.should_stop <;> simp [Thread.process, h1, hb]

/-- Witness for C5: after accepting a job the worker is busy, and a further
submission leaves its state unchanged. -/
theorem thread_busy_flag_invariant_witness :
    ((Thread.new 0).process ⟨1, 2⟩).1.busy = true ∧
    (((Thread.new 0).process ⟨1, 2⟩).1.process ⟨3, 4⟩).1 =
      ((Thread.new 0).process ⟨1, 2⟩).1 :=
  ⟨(thread_busy_flag_invariant 0 (Thread.new 0) ⟨1, 2⟩).2.1 rfl,
    (thread_busy_flag_invariant 0 ((Thread.new 0).process ⟨1, 2⟩).1
        ⟨3, 4⟩).2.2.2.2 rfl⟩

/-- C6: `Thread::stop` sets the stop flag and wakes the worker, and the
worker loop, observing the flag at the top of the loop, reaches the `break`
and exits cleanly (`Ok(())`), performing no further events — so the `join`
inside `stop` returns.  This holds whatever is pending in the inbox. -/
theorem stop_terminates_worker (t : Thread) (thread_id : Nat)
    (comm : Option ScheduledJob)
    (execRes : ScheduledJob → Except Unit Output)
    (record_output_ok job_ended_ok : Bool) :
    (t.stop).should_stop = true ∧
    (t.stop).unparked = true ∧
    innerIteration thread_id (t.stop).should_stop comm execRes
        record_output_ok job_ended_ok = ⟨[], comm, IterOutcome.exitOk⟩ :=
  ⟨rfl, rfl, rfl⟩

/-- C7: `Providers::by_name` returns `Ok` with the provider registered under
the name when one exists (`add` with that name makes it found; `add` with a
different name does not affect the lookup), and
`Err(ProviderNotFound(name))` when no provider with that name was
registered. -/
theorem by_name_lookup (s : Providers) (name other : String) (p : Provider) :
    ((s.add name p).by_name name = Except.ok p) ∧
    (Providers.new.by_name name =
      Except.error ⟨ErrorKind.ProviderNotFound name⟩) ∧
    (other ≠ name → (s.add other p).by_name name = s.by_name name) := by
  refine ⟨?_, rfl, ?_⟩
  · simp [Providers.add, Providers.by_name]
  · intro h
    have hb : (other == name) = false := by
      simp [h]
    simp [Providers.add, Providers.by_name, List.find?, hb]

/-- Witness for C7, mirroring the registry test in the source: the "Sample"
provider is found under its name, and looking up "Not-Exists" gives
`ProviderNotFound`. -/
theorem by_name_lookup_witness :
    ((Providers.new.add "Sample" tests.provider.get).by_name "Not-Exists" =
      Providers.new.by_name "Not-Exists") ∧
    ((Providers.new.add "Sample" tests.provider.get).by_name "Sample" =
      Except.ok tests.provider.get) :=
  ⟨(by_name_lookup Providers.new "Not-Exists" "Sample"
        tests.provider.get).2.2 (by decide),
    (by_name_lookup Providers.new "Sample" "Sample" tests.provider.get).1⟩

/-- C8: `HookProvider::new` returns `Err` exactly when
`provider.check_config(config)` does — with the same error — and on success
it stores the provider and the config, and its `request_type`, `validate`
and `env` each equal the underlying provider's function applied to the
request and the stored config. -/
theorem hook_provider_new_spec (p : Provider) (config : String)
    (req : Request) :
    (∀ e, p.check_config config = Except.error e →
      HookProvider.new p config = Except.error e) ∧
    (p.check_config config = Except.ok () →
      ∃ hp, HookProvider.new p config = Except.ok hp ∧
        hp.provider = p ∧ hp.config = config ∧
        hp.request_type req = p.request_type req config ∧
        hp.validate req = p.validate req config ∧
        hp.env req = p.env req config) := by
  constructor
  · intro e he
    simp [HookProvider.new, he]
  · intro h
    refine ⟨⟨p, config⟩, ?_, rfl, rfl, rfl, rfl, rfl⟩
    simp [HookProvider.new, h]

/-- Witness for C8, mirroring the hook-provider test in the source: the
"Sample" provider rejects the config "FAIL" and accepts "yes", and the
resulting hook provider delegates to the provider's functions. -/
theorem hook_provider_new_spec_witness :
    HookProvider.new tests.provider.get "FAIL" =
      Except.error ⟨ErrorKind.ProviderNotFound ""⟩ ∧
    (∃ hp, HookProvider.new tests.provider.get "yes" = Except.ok hp ∧
      hp.provider = tests.provider.get ∧ hp.config = "yes" ∧
      hp.request_type tests.dummy_request =
        tests.provider.get.request_type tests.dummy_request "yes" ∧
      hp.validate tests.dummy_request =
        tests.provider.get.validate tests.dummy_request "yes" ∧
      hp.env tests.dummy_request =
        tests.provider.get.env tests.dummy_request "yes") :=
  ⟨(hook_provider_new_spec tests.provider.get "FAIL" tests.dummy_request).1
      ⟨ErrorKind.ProviderNotFound ""⟩ rfl,
    (hook_provider_new_spec tests.provider.get "yes" tests.dummy_request).2
      rfl⟩

/-- C9: rejection is side-effect free.  When `Thread::process` returns
`Rejected`, the job handed back is the very job that was passed in, and the
worker's state is unchanged — `currently_running`, the one-slot inbox and
the wake flag all keep their prior values. -/
theorem process_rejected_no_side_effects (t : Thread) (job j2 : ScheduledJob)
    (h : (t.process job).2 = ProcessResult.Rejected j2) :
    j2 = job ∧ (t.process job).1 = t := by
  by_cases h1 : t.should_stop
  · simp_all [Thread.process]
  · by_cases h2 : t.busy
    · simp_all [Thread.process]
    · simp_all [Thread.process]

/-- Witness for C9: a busy worker rejects a concrete job, handing back that
job and keeping its state. -/
theorem process_rejected_no_side_effects_witness :
    (⟨3, 4⟩ : ScheduledJob) = ⟨3, 4⟩ ∧
    (((Thread.new 0).process ⟨1, 2⟩).1.process ⟨3, 4⟩).1 =
      ((Thread.new 0).process ⟨1, 2⟩).1 :=
  process_rejected_no_side_effects ((Thread.new 0).process ⟨1, 2⟩).1 ⟨3, 4⟩
    ⟨3, 4⟩ rfl

/-- C10: an accepted job may never execute if stop intervenes.  Concretely:
a fresh worker accepts a job (`Executing`, the job sits in the inbox); stop
then sets the flag before the worker checks it; since `inner_thread` tests
`should_stop` before taking the pending job, the iteration exits cleanly
with no events — the job is never taken from the inbox, never executed, and
`job_ended` is never called for it. -/
theorem accepted_job_lost_on_stop :
    ((Thread.new 0).process ⟨1, 7⟩).2 = ProcessResult.Executing ∧
    (((Thread.new 0).process ⟨1, 7⟩).1.stop).communication = some ⟨1, 7⟩ ∧
    (((Thread.new 0).process ⟨1, 7⟩).1.stop).should_stop = true ∧
    innerIteration 0 (((Thread.new 0).process ⟨1, 7⟩).1.stop).should_stop
        (((Thread.new 0).process ⟨1, 7⟩).1.stop).communication
        (fun _ => Except.ok ⟨1, 7, true, 0⟩) true true =
      ⟨[], some ⟨1, 7⟩, IterOutcome.exitOk⟩ :=
  ⟨rfl, rfl, rfl, rfl⟩

end Fisher
